import Mathlib

/-!
Shallow embedding of the MyVoiceBot voice-channel lifecycle logic
(src/bot/bot.py, src/bot/views.py, src/bot/utils.py, src/bot/config.py).

The bot keeps an in-memory registry `created_channels` mapping channel id to
metadata, creates a temporary voice channel when a user joins the configured
lobby channel, and deletes it when empty.  Platform effects (Discord API
calls) are modelled by explicit outcome parameters: a delete call can
succeed, report not-found, report forbidden, or fail generically, matching
the `discord.NotFound` / `discord.Forbidden` / generic `Exception` handlers
in the source.
-/

namespace VoiceBot

/-- A Discord permission overwrite: each permission flag is either unset
(`none`), allowed (`some true`) or denied (`some false`).  Mirrors the
fields used by the source (`connect`, plus the three creator grants from
`create_channel_overwrites`, and `speak` as a representative further flag). -/
structure PermissionOverwrite where
  connect : Option Bool := none
  speak : Option Bool := none
  manage_channels : Option Bool := none
  manage_permissions : Option Bool := none
  move_members : Option Bool := none
deriving DecidableEq, Repr

/-- The target of a permission overwrite: the guild's default (everyone)
role, another role, or a member. -/
inductive OverwriteTarget where
  | defaultRole : OverwriteTarget
  | role (id : Nat) : OverwriteTarget
  | member (id : Nat) : OverwriteTarget
deriving DecidableEq, Repr

/-- A live voice channel as the bot observes it: id, name, category,
user limit, currently connected member ids, and permission overwrites
(an association list keyed by target, keys unique as in a Python dict). -/
structure Channel where
  id : Nat
  name : String
  categoryId : Nat
  userLimit : Nat
  members : List Nat
  overwrites : List (OverwriteTarget × PermissionOverwrite)
deriving DecidableEq, Repr

/-- One registry entry (`self.created_channels[channel_id]`): the creator's
user id and, once the control panel is posted, its message id.
(`created_at` is informational only and not modelled.) -/
structure ChannelInfo where
  creatorId : Nat
  controlMessageId : Option Nat := none
deriving DecidableEq, Repr

/-- The registry `self.created_channels`: an association list from channel
id to metadata, keys unique (Python dict). -/
abbrev Registry := List (Nat × ChannelInfo)

/-- Dict lookup: `created_channels.get(k)`. -/
def registryLookup : Registry → Nat → Option ChannelInfo
  | [], _ => none
  | e :: rest, k => if e.1 = k then some e.2 else registryLookup rest k

/-- Dict membership: `k in created_channels`. -/
def registryHas (r : Registry) (k : Nat) : Bool :=
  (registryLookup r k).isSome

/-- Dict assignment `created_channels[k] = v`: replace in place if the key
exists, append otherwise. -/
def registryInsert : Registry → Nat → ChannelInfo → Registry
  | [], k, v => [(k, v)]
  | e :: rest, k, v => if e.1 = k then (k, v) :: rest else e :: registryInsert rest k v

/-- Dict removal `created_channels.pop(k, None)`: drop the entry with key
`k` (keys are unique, so filtering drops at most one entry). -/
def registryErase (r : Registry) (k : Nat) : Registry :=
  r.filter (fun e => e.1 ≠ k)

/-- Environment-derived configuration (config.py): the lobby channel id
`MAIN_CHANNEL_ID` and the target category id `MAIN_CATEGORY_ID`. -/
structure Config where
  mainChannelId : Nat
  mainCategoryId : Nat
deriving DecidableEq, Repr

/-- The outcome of a platform delete/create call, matching the exception
handlers in the source: success, `discord.NotFound`, `discord.Forbidden`,
or a generic `Exception`. -/
inductive DeleteOutcome where
  | success : DeleteOutcome
  | notFound : DeleteOutcome
  | forbidden : DeleteOutcome
  | otherError : DeleteOutcome
deriving DecidableEq, Repr

/-- `VoiceBot._is_channel_empty`: a channel is empty iff it has no
connected members. -/
def is_channel_empty (channel : Channel) : Bool :=
  channel.members.length = 0

/-- Result of `VoiceBot._cleanup_empty_channel`: the registry afterwards,
whether the channel was actually deleted by this call (the delete call ran
and succeeded), whether the non-empty warning was logged, and whether the
forbidden error was logged. -/
structure CleanupResult where
  registry : Registry
  deletedChannel : Bool
  warnedNonEmpty : Bool
  forbiddenLogged : Bool
deriving DecidableEq, Repr

/-- `VoiceBot._cleanup_empty_channel` (bot.py lines 160-185).
No-op if the channel id is not registered.  Otherwise re-check emptiness:
if non-empty, log a warning and return without touching anything.  Then
attempt `channel.delete()` (the control-message cleanup swallows its own
errors and never affects the registry, so it is not modelled):
on success pop the entry; on `discord.NotFound` pop the entry (already
gone); on `discord.Forbidden` log and keep the entry; on a generic
exception log and keep the entry.  `deleteCall` is the outcome the
platform gives the delete call. -/
def cleanup_empty_channel (reg : Registry) (channel : Channel)
    (deleteCall : DeleteOutcome) : CleanupResult :=
  if registryHas reg channel.id then
    if ¬ is_channel_empty channel then
      { registry := reg, deletedChannel := false,
        warnedNonEmpty := true, forbiddenLogged := false }
    else
      match deleteCall with
      | .success =>
          { registry := registryErase reg channel.id, deletedChannel := true,
            warnedNonEmpty := false, forbiddenLogged := false }
      | .notFound =>
          { registry := registryErase reg channel.id, deletedChannel := false,
            warnedNonEmpty := false, forbiddenLogged := false }
      | .forbidden =>
          { registry := reg, deletedChannel := false,
            warnedNonEmpty := false, forbiddenLogged := true }
      | .otherError =>
          { registry := reg, deletedChannel := false,
            warnedNonEmpty := false, forbiddenLogged := false }
  else
    { registry := reg, deletedChannel := false,
      warnedNonEmpty := false, forbiddenLogged := false }

/-- Result of one iteration of `VoiceBot._monitor_channel`'s loop body:
the registry afterwards, whether the loop stopped (`break` or the while
condition failing), and whether a channel deletion actually happened. -/
structure MonitorResult where
  registry : Registry
  stopped : Bool
  deletedChannel : Bool
deriving DecidableEq, Repr

/-- One tick of `VoiceBot._monitor_channel` (bot.py lines 133-158) for the
channel with id `channelId`: if the id has left the registry the while
condition fails and the loop stops; otherwise `self.get_channel` resolves
the live channel (`resolved`); if unresolvable the entry is popped and the
loop breaks; if resolved and empty, `_cleanup_empty_channel` runs and the
loop breaks; otherwise the loop keeps waiting. -/
def monitor_tick (reg : Registry) (channelId : Nat) (resolved : Option Channel)
    (deleteCall : DeleteOutcome) : MonitorResult :=
  if ¬ registryHas reg channelId then
    { registry := reg, stopped := true, deletedChannel := false }
  else
    match resolved with
    | none =>
        { registry := registryErase reg channelId, stopped := true,
          deletedChannel := false }
    | some c =>
        if is_channel_empty c then
          let r := cleanup_empty_channel reg c deleteCall
          { registry := r.registry, stopped := true,
            deletedChannel := r.deletedChannel }
        else
          { registry := reg, stopped := false, deletedChannel := false }

/-- State threaded through `VoiceBot.cleanup_channels`: the live registry,
the `cleaned` counter reported to the invoking administrator, and a ghost
count of delete calls that actually succeeded (for comparing the report
with reality). -/
structure SweepState where
  registry : Registry
  cleaned : Nat
  actuallyDeleted : Nat
deriving DecidableEq, Repr

/-- One iteration of the `for channel_id, channel_info in list(...)` loop in
`VoiceBot.cleanup_channels` (bot.py lines 222-236): resolve the channel by
id (`resolve`); if unresolvable pop the entry and continue; if resolved and
empty run `_cleanup_empty_channel` and increment `cleaned`; otherwise leave
everything untouched.  `deleteCalls` gives each channel's delete-call
outcome. -/
def cleanup_channels_step (resolve : Nat → Option Channel)
    (deleteCalls : Nat → DeleteOutcome) (acc : SweepState)
    (entry : Nat × ChannelInfo) : SweepState :=
  match resolve entry.1 with
  | none =>
      { acc with registry := registryErase acc.registry entry.1 }
  | some c =>
      if is_channel_empty c then
        let r := cleanup_empty_channel acc.registry c (deleteCalls entry.1)
        { registry := r.registry, cleaned := acc.cleaned + 1,
          actuallyDeleted := acc.actuallyDeleted +
            (if r.deletedChannel then 1 else 0) }
      else
        acc

/-- `VoiceBot.cleanup_channels` (bot.py lines 217-238): iterate over a
snapshot of the registry items, mutating the live registry, and report the
`cleaned` counter at the end. -/
def cleanup_channels (reg : Registry) (resolve : Nat → Option Channel)
    (deleteCalls : Nat → DeleteOutcome) : SweepState :=
  reg.foldl (cleanup_channels_step resolve deleteCalls)
    { registry := reg, cleaned := 0, actuallyDeleted := 0 }

/-- `create_channel_name` (utils.py): a fixed decorative speaker prefix
followed by the member's display name. -/
def create_channel_name (displayName : String) : String :=
  "🔊 " ++ displayName

/-- `create_channel_overwrites` (utils.py): the triggering member gets
manage-channels, manage-permissions and move-members on the new channel. -/
def create_channel_overwrites (memberId : Nat) :
    List (OverwriteTarget × PermissionOverwrite) :=
  [(.member memberId,
    { manage_channels := some true, manage_permissions := some true,
      move_members := some true })]

/-- The guild-side world the lifecycle controller acts on: the live voice
channels, the category ids present in the guild, the bot's registry, and
the id the platform will give the next created channel. -/
structure World where
  channels : List Channel
  categories : List Nat
  registry : Registry
  nextChannelId : Nat
deriving DecidableEq, Repr

/-- `self.get_channel` / `discord.utils.get(guild.voice_channels, ...)`:
resolve a live channel by id in the world. -/
def World.getChannel (w : World) (channelId : Nat) : Option Channel :=
  w.channels.find? (fun c => c.id = channelId)

/-- `member.move_to(channel)`: disconnect the member from every channel and
connect them to the target channel. -/
def moveMember (w : World) (memberId : Nat) (channelId : Nat) : World :=
  { w with channels := w.channels.map (fun c =>
      if c.id = channelId then
        { c with members := c.members.filter (fun m => m ≠ memberId) ++ [memberId] }
      else
        { c with members := c.members.filter (fun m => m ≠ memberId) }) }

/-- Platform effect choices for one `_create_temp_channel` call: the
outcome of `guild.create_voice_channel` (success or `discord.Forbidden`),
whether `member.move_to` succeeds (it fails when the user already left),
and the message id `send_control_message` returns (it catches its own
errors and returns `None` on any failure). -/
structure CreateEffects where
  createCall : DeleteOutcome
  moveSucceeds : Bool
  controlMessageId : Option Nat
deriving DecidableEq, Repr

/-- Result of `VoiceBot._create_temp_channel`: the world afterwards, the id
of the created channel if any, whether the per-channel monitor task was
started (`asyncio.create_task(self._monitor_channel(...))` was reached),
and whether the control panel message was recorded. -/
structure CreateResult where
  world : World
  created : Option Nat
  monitorStarted : Bool
  controlMessageSent : Bool
deriving DecidableEq, Repr

/-- `VoiceBot._create_temp_channel` (bot.py lines 92-131).
Resolve the category; if missing, log and abort with nothing changed.
Create the voice channel (unlimited occupancy, creator overwrites); a
`discord.Forbidden` from the platform is caught and aborts with nothing
changed.  Register the new channel (creator = triggering member), then move
the member into it: a failing move raises, is caught by the generic
handler, and aborts the rest of the body — the registry entry stays, but
neither the control message nor the monitor task happens.  On a successful
move, post the control panel (storing its message id in the entry when
posting succeeds) and start the monitor task. -/
def create_temp_channel (cfg : Config) (w : World) (memberId : Nat)
    (displayName : String) (fx : CreateEffects) : CreateResult :=
  if ¬ w.categories.contains cfg.mainCategoryId then
    { world := w, created := none, monitorStarted := false,
      controlMessageSent := false }
  else if fx.createCall ≠ .success then
    { world := w, created := none, monitorStarted := false,
      controlMessageSent := false }
  else
    let cid := w.nextChannelId
    let newChannel : Channel :=
      { id := cid, name := create_channel_name displayName,
        categoryId := cfg.mainCategoryId, userLimit := 0, members := [],
        overwrites := create_channel_overwrites memberId }
    let w1 : World :=
      { w with channels := w.channels ++ [newChannel],
               nextChannelId := cid + 1,
               registry := registryInsert w.registry cid
                 { creatorId := memberId, controlMessageId := none } }
    if ¬ fx.moveSucceeds then
      { world := w1, created := some cid, monitorStarted := false,
        controlMessageSent := false }
    else
      let w2 := moveMember w1 memberId cid
      match fx.controlMessageId with
      | some mid =>
          let reg2 := registryInsert w2.registry cid
            { creatorId := memberId, controlMessageId := some mid }
          { world := { w2 with registry := reg2 },
            created := some cid, monitorStarted := true,
            controlMessageSent := true }
      | none =>
          { world := w2, created := some cid, monitorStarted := true,
            controlMessageSent := false }

/-- `channel.delete()` applied to the world: remove the channel on success,
leave the world unchanged on any failure outcome. -/
def worldDelete (w : World) (channelId : Nat) (deleteCall : DeleteOutcome) : World :=
  if deleteCall = .success then
    { w with channels := w.channels.filter (fun c => c.id ≠ channelId) }
  else
    w

/-- `VoiceBot.on_voice_state_update` (bot.py lines 69-86) for one
membership-change event of `memberId` moving from channel `before` to
channel `after` (ids, `none` = not in a voice channel).
If the new channel is the configured lobby, `_create_temp_channel` runs.
Then, if the previous channel is a registered temporary channel and the
user actually left it (the new channel differs), its live emptiness is
checked and, when empty, `_cleanup_empty_channel` runs; the deletion is
applied to the world according to `deleteCall`. -/
def on_voice_state_update (cfg : Config) (w : World) (memberId : Nat)
    (displayName : String) (before after : Option Nat) (fx : CreateEffects)
    (deleteCall : DeleteOutcome) : World :=
  let w1 :=
    match after with
    | some afterId =>
        if afterId = cfg.mainChannelId then
          (create_temp_channel cfg w memberId displayName fx).world
        else w
    | none => w
  match before with
  | none => w1
  | some beforeId =>
      if registryHas w1.registry beforeId ∧ after ≠ some beforeId then
        match w1.getChannel beforeId with
        | some c =>
            if is_channel_empty c then
              let r := cleanup_empty_channel w1.registry c deleteCall
              let w2 := worldDelete w1 beforeId deleteCall
              { w2 with registry := r.registry }
            else w1
        | none => w1
      else w1

/-- Overwrite-dict lookup (`overwrites.get(target)`). -/
def overwritesLookup : List (OverwriteTarget × PermissionOverwrite) →
    OverwriteTarget → Option PermissionOverwrite
  | [], _ => none
  | e :: rest, t => if e.1 = t then some e.2 else overwritesLookup rest t

/-- Overwrite-dict assignment (`overwrites[target] = ow`): replace in place
if the target is present, append otherwise. -/
def overwritesInsert : List (OverwriteTarget × PermissionOverwrite) →
    OverwriteTarget → PermissionOverwrite →
    List (OverwriteTarget × PermissionOverwrite)
  | [], t, ow => [(t, ow)]
  | e :: rest, t, ow =>
      if e.1 = t then (t, ow) :: rest else e :: overwritesInsert rest t ow

/-- Overwrite-dict removal (`del overwrites[target]`). -/
def overwritesErase (l : List (OverwriteTarget × PermissionOverwrite))
    (t : OverwriteTarget) : List (OverwriteTarget × PermissionOverwrite) :=
  l.filter (fun e => e.1 ≠ t)

/-- An interacting user as seen by the control panel: their id and whether
they hold the administrator guild permission. -/
structure Interaction where
  userId : Nat
  isAdmin : Bool
deriving DecidableEq, Repr

/-- `ChannelControlView.interaction_check` (views.py lines 21-31): allow
the channel creator and administrators; anyone else gets an ephemeral
rejection message and the button callback never runs. -/
def interaction_check (creatorId : Nat) (i : Interaction) : Bool :=
  i.userId = creatorId || i.isAdmin

/-- `ChannelControlView.make_private` (views.py lines 33-44): set the
default role's overwrite on this channel to a fresh
`PermissionOverwrite(connect=False)` (all other flags unset), leaving
overwrites for other targets alone. -/
def make_private (c : Channel) : Channel :=
  { c with overwrites :=
      overwritesInsert c.overwrites .defaultRole { connect := some false } }

/-- `ChannelControlView.make_public` (views.py lines 46-58): if the default
role has an overwrite entry on this channel, delete that whole entry
(whatever flags it carries); otherwise change nothing. -/
def make_public (c : Channel) : Channel :=
  { c with overwrites :=
      if (overwritesLookup c.overwrites .defaultRole).isSome then
        overwritesErase c.overwrites .defaultRole
      else
        c.overwrites }

/-- Result of the control panel's delete button: the registry afterwards
(the view holds no reference to the registry, so it is passed through),
whether the channel was actually deleted, and whether the error followup
was sent. -/
structure ViewDeleteResult where
  registry : Registry
  channelDeleted : Bool
  errorReported : Bool
deriving DecidableEq, Repr

/-- `ChannelControlView.delete_channel` (views.py lines 72-85): announce
the countdown, sleep, then call `self.channel.delete()`; any failure
(not-found, forbidden, generic) is caught and reported as an ephemeral
followup.  The view never touches `created_channels`. -/
def view_delete_channel (reg : Registry) (deleteCall : DeleteOutcome) :
    ViewDeleteResult :=
  match deleteCall with
  | .success =>
      { registry := reg, channelDeleted := true, errorReported := false }
  | _ =>
      { registry := reg, channelDeleted := false, errorReported := true }

/-- The five control panel buttons.  The user-limit and rename buttons only
open a modal (their submissions are modelled separately), so they mutate
nothing by themselves. -/
inductive PanelAction where
  | makePrivateButton : PanelAction
  | makePublicButton : PanelAction
  | userLimitButton : PanelAction
  | renameButton : PanelAction
  | deleteButton : PanelAction
deriving DecidableEq, Repr

/-- Outcome of one control-panel button interaction. -/
structure PanelOutcome where
  channel : Channel
  registry : Registry
  channelDeleted : Bool
  rejected : Bool
deriving DecidableEq, Repr

/-- One control-panel button interaction as discord.py dispatches it:
`interaction_check` runs first, and only when it returns true does the
button callback run. -/
def panel_dispatch (creatorId : Nat) (c : Channel) (reg : Registry)
    (i : Interaction) (a : PanelAction) (deleteCall : DeleteOutcome) :
    PanelOutcome :=
  if interaction_check creatorId i then
    match a with
    | .makePrivateButton =>
        { channel := make_private c, registry := reg,
          channelDeleted := false, rejected := false }
    | .makePublicButton =>
        { channel := make_public c, registry := reg,
          channelDeleted := false, rejected := false }
    | .userLimitButton =>
        { channel := c, registry := reg,
          channelDeleted := false, rejected := false }
    | .renameButton =>
        { channel := c, registry := reg,
          channelDeleted := false, rejected := false }
    | .deleteButton =>
        let r := view_delete_channel reg deleteCall
        { channel := c, registry := r.registry,
          channelDeleted := r.channelDeleted, rejected := false }
  else
    { channel := c, registry := reg, channelDeleted := false,
      rejected := true }

/-- Value of a list of decimal digit characters. -/
def digitsToNat (l : List Char) : Nat :=
  l.foldl (fun acc ch => acc * 10 + (ch.toNat - 48)) 0

/-- Python's `int(str)` on decimal strings: optional surrounding spaces, an
optional single sign, then at least one digit; anything else raises
`ValueError` (`none`).  (Digit-group underscores, which the two-character
input field cannot produce, are not modelled.) -/
def pyInt (s : String) : Option Int :=
  let trimmed :=
    ((s.toList.dropWhile (fun ch => ch = ' ')).reverse.dropWhile
      (fun ch => ch = ' ')).reverse
  let signDigits : Bool × List Char :=
    match trimmed with
    | '-' :: rest => (true, rest)
    | '+' :: rest => (false, rest)
    | rest => (false, rest)
  if signDigits.2 ≠ [] ∧ signDigits.2.all Char.isDigit then
    let n : Int := Int.ofNat (digitsToNat signDigits.2)
    some (if signDigits.1 then -n else n)
  else
    none

/-- Result of a modal submission: the channel afterwards and the ephemeral
message sent to the submitting user. -/
structure ModalResult where
  channel : Channel
  message : String
deriving DecidableEq, Repr

/-- The range-error message of the user-limit modal (views.py line 107). -/
def limitRangeErrorMessage : String := "❌ Лимит должен быть от 0 до 99!"

/-- The `ValueError` message of the user-limit modal (views.py line 120). -/
def limitValueErrorMessage : String := "❌ Введите корректное число!"

/-- `UserLimitModal.on_submit` (views.py lines 102-123): parse the
submitted text with `int`; a `ValueError` yields the invalid-number
message and no edit; a value outside [0, 99] yields the range message and
no edit; otherwise the channel's user limit is set to the value and a
confirmation is sent. -/
def userLimit_on_submit (c : Channel) (value : String) : ModalResult :=
  match pyInt value with
  | some limit =>
      if limit < 0 ∨ limit > 99 then
        { channel := c, message := limitRangeErrorMessage }
      else
        { channel := { c with userLimit := limit.toNat },
          message := "👥 Лимит установлен: " ++
            (if limit = 0 then "без ограничений" else
              toString limit ++ " пользователей") }
  | none => { channel := c, message := limitValueErrorMessage }

/-! ## Helper lemmas about the registry and overwrite dictionaries -/

theorem lookup_insert_self (r : Registry) (k : Nat) (v : ChannelInfo) :
    registryLookup (registryInsert r k v) k = some v := by
  induction r with
  | nil => simp [registryInsert, registryLookup]
  | cons e rest ih =>
      by_cases h : e.1 = k <;> simp [registryInsert, registryLookup, h, ih]

theorem lookup_insert_ne (r : Registry) (k : Nat) (v : ChannelInfo) (id : Nat)
    (h : id ≠ k) :
    registryLookup (registryInsert r k v) id = registryLookup r id := by
  induction r with
  | nil => simp [registryInsert, registryLookup, Ne.symm h]
  | cons e rest ih =>
      by_cases he : e.1 = k <;>
        simp [registryInsert, registryLookup, he, ih, Ne.symm h]

theorem lookup_erase_ne (r : Registry) (k : Nat) (id : Nat) (h : id ≠ k) :
    registryLookup (registryErase r k) id = registryLookup r id := by
  induction r with
  | nil => simp [registryErase, registryLookup]
  | cons e rest ih =>
      by_cases he : e.1 = k <;>
        by_cases hid : e.1 = id <;>
          simp_all [registryErase, registryLookup, List.filter]

/-! ## Sample data for witnesses and counterexamples -/

/-- A sample registry entry: creator user 7, no control message. -/
def sampleInfo : ChannelInfo := { creatorId := 7 }

/-- A sample empty managed channel with id 5. -/
def emptyChan : Channel :=
  { id := 5, name := "🔊 user", categoryId := 3, userLimit := 0,
    members := [], overwrites := [] }

/-- The same channel but with user 9 connected. -/
def busyChan : Channel := { emptyChan with members := [9] }

/-- A registry tracking the sample channel. -/
def sampleReg : Registry := [(5, sampleInfo)]

/-! ## Claims -/

/-- C1: every lifecycle deletion path (event-driven leave check, monitor
loop, manual sweep) goes through `_cleanup_empty_channel`, and that
procedure re-checks that the channel's live occupancy is exactly zero
immediately before issuing the delete call: a deletion only ever happens
for an empty channel, and when the channel is non-empty at that moment the
procedure logs a warning (when the channel is tracked) and returns without
deleting the channel or changing the registry. -/
theorem C1_deletion_rechecks_occupancy (reg : Registry) (c : Channel)
    (deleteCall : DeleteOutcome) :
    ((cleanup_empty_channel reg c deleteCall).deletedChannel = true →
      is_channel_empty c = true) ∧
    (is_channel_empty c = false →
      (cleanup_empty_channel reg c deleteCall).registry = reg ∧
      (cleanup_empty_channel reg c deleteCall).deletedChannel = false ∧
      (registryHas reg c.id = true →
        (cleanup_empty_channel reg c deleteCall).warnedNonEmpty = true)) := by
  constructor
  · intro h
    by_cases hr : registryHas reg c.id <;>
      by_cases he : is_channel_empty c <;>
        cases deleteCall <;> simp_all [cleanup_empty_channel]
  · intro h
    by_cases hr : registryHas reg c.id <;>
      cases deleteCall <;> simp_all [cleanup_empty_channel]

/-- C1 witness: with channel 5 tracked but occupied by user 9, the
deletion procedure leaves the registry alone, deletes nothing and logs the
warning. -/
theorem C1_witness :
    (cleanup_empty_channel sampleReg busyChan .success).registry = sampleReg ∧
    (cleanup_empty_channel sampleReg busyChan .success).deletedChannel = false ∧
    (cleanup_empty_channel sampleReg busyChan .success).warnedNonEmpty = true := by
  have h := (C1_deletion_rechecks_occupancy sampleReg busyChan .success).2
    (by decide)
  exact ⟨h.1, h.2.1, h.2.2 (by decide)⟩

/-- C4: the occupancy-limit submission parses with Python `int`; an
integer value in [0, 99] is applied as the channel's user limit; an
out-of-range integer leaves the channel unchanged and yields the range
error; a non-numeric string leaves the channel unchanged and yields the
distinct `ValueError` message. -/
theorem C4_user_limit_validation (c : Channel) (s : String) :
    (∀ n : Int, pyInt s = some n → 0 ≤ n → n ≤ 99 →
      (userLimit_on_submit c s).channel = { c with userLimit := n.toNat }) ∧
    (∀ n : Int, pyInt s = some n → (n < 0 ∨ 99 < n) →
      (userLimit_on_submit c s).channel = c ∧
      (userLimit_on_submit c s).message = limitRangeErrorMessage) ∧
    (pyInt s = none →
      (userLimit_on_submit c s).channel = c ∧
      (userLimit_on_submit c s).message = limitValueErrorMessage) ∧
    limitRangeErrorMessage ≠ limitValueErrorMessage := by
  refine ⟨?_, ?_, ?_, by decide⟩
  · intro n hn h0 h99
    unfold userLimit_on_submit
    rw [hn]
    have hno : ¬ (n < 0 ∨ n > 99) := by omega
    simp [hno]
  · intro n hn hout
    unfold userLimit_on_submit
    rw [hn]
    have hyes : (n < 0 ∨ n > 99) := by omega
    simp [hyes]
  · intro hn
    unfold userLimit_on_submit
    rw [hn]
    exact ⟨rfl, rfl⟩

/-- C4 witness: submitting "5" sets the limit to 5; "-1" is rejected with
the range error and no change; "abc" is rejected with the distinct
validation message and no change. -/
theorem C4_witness :
    (userLimit_on_submit emptyChan "5").channel =
      { emptyChan with userLimit := 5 } ∧
    (userLimit_on_submit emptyChan "-1").channel = emptyChan ∧
    (userLimit_on_submit emptyChan "-1").message = limitRangeErrorMessage ∧
    (userLimit_on_submit emptyChan "abc").channel = emptyChan ∧
    (userLimit_on_submit emptyChan "abc").message = limitValueErrorMessage := by
  refine ⟨?_, ?_, ?_, ?_, ?_⟩
  · exact (C4_user_limit_validation emptyChan "5").1 5 (by decide) (by decide)
      (by decide)
  · exact ((C4_user_limit_validation emptyChan "-1").2.1 (-1) (by decide)
      (Or.inl (by decide))).1
  · exact ((C4_user_limit_validation emptyChan "-1").2.1 (-1) (by decide)
      (Or.inl (by decide))).2
  · exact ((C4_user_limit_validation emptyChan "abc").2.2.1 (by decide)).1
  · exact ((C4_user_limit_validation emptyChan "abc").2.2.1 (by decide)).2

/-- C5: a control-panel interaction by a user who fails the authorization
check is rejected: the channel, the registry and the channel's existence
are untouched and the rejection notice is the only response; and the
authorization check passes exactly for the recorded creator or an
administrator. -/
theorem C5_panel_authorization (creatorId : Nat) (c : Channel)
    (reg : Registry) (i : Interaction) (a : PanelAction)
    (deleteCall : DeleteOutcome) :
    (interaction_check creatorId i = false →
      panel_dispatch creatorId c reg i a deleteCall =
        { channel := c, registry := reg, channelDeleted := false,
          rejected := true }) ∧
    (interaction_check creatorId i = true ↔
      (i.userId = creatorId ∨ i.isAdmin = true)) := by
  constructor
  · intro h
    unfold panel_dispatch
    simp [h]
  · unfold interaction_check
    simp [Bool.or_eq_true, decide_eq_true_eq]

/-- C5 witness: user 8 (not creator 7, not admin) pressing the
make-private button changes nothing and is rejected, while creator 7 and
an admin pass the check. -/
theorem C5_witness :
    panel_dispatch 7 emptyChan sampleReg { userId := 8, isAdmin := false }
        .makePrivateButton .success =
      { channel := emptyChan, registry := sampleReg, channelDeleted := false,
        rejected := true } ∧
    interaction_check 7 { userId := 7, isAdmin := false } = true ∧
    interaction_check 7 { userId := 8, isAdmin := true } = true := by
  refine ⟨?_, ?_, ?_⟩
  · exact (C5_panel_authorization 7 emptyChan sampleReg
      { userId := 8, isAdmin := false } .makePrivateButton .success).1
      (by decide)
  · exact (C5_panel_authorization 7 emptyChan sampleReg
      { userId := 7, isAdmin := false } .makePrivateButton .success).2.mpr
      (Or.inl rfl)
  · exact (C5_panel_authorization 7 emptyChan sampleReg
      { userId := 8, isAdmin := true } .makePrivateButton .success).2.mpr
      (Or.inr rfl)

/-- C6: in the deletion procedure (channel tracked and empty), a not-found
outcome of the delete call is treated as success — the registry entry is
still removed — while a forbidden outcome is logged as a failure and the
entry is left in place for a later retry. -/
theorem C6_notfound_vs_forbidden (reg : Registry) (c : Channel)
    (hreg : registryHas reg c.id = true)
    (hempty : is_channel_empty c = true) :
    (cleanup_empty_channel reg c .notFound).registry =
      registryErase reg c.id ∧
    (cleanup_empty_channel reg c .notFound).deletedChannel = false ∧
    (cleanup_empty_channel reg c .forbidden).registry = reg ∧
    (cleanup_empty_channel reg c .forbidden).forbiddenLogged = true := by
  simp [cleanup_empty_channel, hreg, hempty]

/-- C6 witness: for the tracked empty channel 5, a not-found delete still
deregisters it, while a forbidden delete logs and keeps the entry. -/
theorem C6_witness :
    (cleanup_empty_channel sampleReg emptyChan .notFound).registry =
      registryErase sampleReg 5 ∧
    (cleanup_empty_channel sampleReg emptyChan .forbidden).registry =
      sampleReg ∧
    (cleanup_empty_channel sampleReg emptyChan .forbidden).forbiddenLogged =
      true := by
  have h := C6_notfound_vs_forbidden sampleReg emptyChan (by decide) (by decide)
  exact ⟨h.1, h.2.2.1, h.2.2.2⟩

/-- Sample configuration: lobby channel 1, category 2. -/
def cfg0 : Config := { mainChannelId := 1, mainCategoryId := 2 }

/-- The lobby channel with user 7 connected. -/
def lobbyChan : Channel :=
  { id := 1, name := "lobby", categoryId := 2, userLimit := 0,
    members := [7], overwrites := [] }

/-- A guild world holding just the lobby; the next created channel gets
id 10. -/
def w0 : World :=
  { channels := [lobbyChan], categories := [2], registry := [],
    nextChannelId := 10 }

/-- The same world without the configured category. -/
def w0NoCat : World := { w0 with categories := [] }

/-- Effects of a fully successful creation (control message posting
failed benignly, returning no id). -/
def fxHappy : CreateEffects :=
  { createCall := .success, moveSucceeds := true, controlMessageId := none }

/-- Effects where the move of the triggering user fails (user already
left the lobby). -/
def fxMoveFail : CreateEffects :=
  { createCall := .success, moveSucceeds := false, controlMessageId := none }

/-- Effects where the platform refuses channel creation. -/
def fxForbidden : CreateEffects :=
  { createCall := .forbidden, moveSucceeds := true, controlMessageId := none }

/-- C7: channel creation is atomic with respect to the registry — a
missing category aborts with nothing created and nothing registered, and a
forbidden creation call likewise leaves the world and registry untouched. -/
theorem C7_creation_atomic (cfg : Config) (w : World) (memberId : Nat)
    (dn : String) (fx : CreateEffects) :
    (w.categories.contains cfg.mainCategoryId = false →
      create_temp_channel cfg w memberId dn fx =
        { world := w, created := none, monitorStarted := false,
          controlMessageSent := false }) ∧
    (fx.createCall = .forbidden →
      create_temp_channel cfg w memberId dn fx =
        { world := w, created := none, monitorStarted := false,
          controlMessageSent := false }) := by
  constructor
  · intro h
    have h' : cfg.mainCategoryId ∉ w.categories := by simpa using h
    unfold create_temp_channel
    simp [h']
  · intro h
    unfold create_temp_channel
    by_cases hc : cfg.mainCategoryId ∈ w.categories <;> simp [hc, h]

/-- C7 witness: with the category absent, and separately with a forbidden
creation call, nothing is created or registered. -/
theorem C7_witness :
    create_temp_channel cfg0 w0NoCat 7 "u" fxHappy =
      { world := w0NoCat, created := none, monitorStarted := false,
        controlMessageSent := false } ∧
    create_temp_channel cfg0 w0 7 "u" fxForbidden =
      { world := w0, created := none, monitorStarted := false,
        controlMessageSent := false } :=
  ⟨(C7_creation_atomic cfg0 w0NoCat 7 "u" fxHappy).1 (by decide),
   (C7_creation_atomic cfg0 w0 7 "u" fxForbidden).2 rfl⟩

/-- C2 counterexample: when the move of the triggering user fails, the
channel is created and registered, but — contrary to the claim — the
per-channel monitoring loop is NOT started: the exception raised by the
failed move aborts the rest of `_create_temp_channel` before
`asyncio.create_task(self._monitor_channel(...))` is reached. -/
theorem C2_counterexample :
    (create_temp_channel cfg0 w0 7 "u" fxMoveFail).created = some 10 ∧
    registryHas
      (create_temp_channel cfg0 w0 7 "u" fxMoveFail).world.registry 10 =
      true ∧
    (create_temp_channel cfg0 w0 7 "u" fxMoveFail).monitorStarted = false := by
  decide

/-- C2 amended: if the move of the triggering user into the newly created
channel fails, the channel still exists and remains registered, but the
monitoring loop is not started (and no control panel is posted): the
failure aborts the remainder of the creation routine, so the channel is
cleaned up only by the event-driven leave check or the manual sweep. -/
theorem C2_move_failure_skips_monitor (cfg : Config) (w : World)
    (memberId : Nat) (dn : String) (fx : CreateEffects)
    (hcat : w.categories.contains cfg.mainCategoryId = true)
    (hcreate : fx.createCall = .success)
    (hmove : fx.moveSucceeds = false) :
    (create_temp_channel cfg w memberId dn fx).created =
      some w.nextChannelId ∧
    (create_temp_channel cfg w memberId dn fx).world.channels =
      w.channels ++
        [{ id := w.nextChannelId, name := create_channel_name dn,
           categoryId := cfg.mainCategoryId, userLimit := 0, members := [],
           overwrites := create_channel_overwrites memberId }] ∧
    registryLookup (create_temp_channel cfg w memberId dn fx).world.registry
        w.nextChannelId =
      some { creatorId := memberId, controlMessageId := none } ∧
    (create_temp_channel cfg w memberId dn fx).monitorStarted = false ∧
    (create_temp_channel cfg w memberId dn fx).controlMessageSent = false := by
  have hcat' : cfg.mainCategoryId ∈ w.categories := by simpa using hcat
  unfold create_temp_channel
  simp [hcat', hcreate, hmove, lookup_insert_self]

/-- C2 amended witness: concrete move-failure creation in the sample
world. -/
theorem C2_witness :
    (create_temp_channel cfg0 w0 7 "u" fxMoveFail).created = some 10 ∧
    registryLookup
        (create_temp_channel cfg0 w0 7 "u" fxMoveFail).world.registry 10 =
      some { creatorId := 7, controlMessageId := none } ∧
    (create_temp_channel cfg0 w0 7 "u" fxMoveFail).monitorStarted = false ∧
    (create_temp_channel cfg0 w0 7 "u" fxMoveFail).controlMessageSent =
      false :=
  have h := C2_move_failure_skips_monitor cfg0 w0 7 "u" fxMoveFail
    (by decide) rfl rfl
  ⟨h.1, h.2.2.1, h.2.2.2.1, h.2.2.2.2⟩

theorem owLookup_insert_self (l : List (OverwriteTarget × PermissionOverwrite))
    (t : OverwriteTarget) (ow : PermissionOverwrite) :
    overwritesLookup (overwritesInsert l t ow) t = some ow := by
  induction l with
  | nil => simp [overwritesInsert, overwritesLookup]
  | cons e rest ih =>
      by_cases h : e.1 = t <;> simp [overwritesInsert, overwritesLookup, h, ih]

theorem owLookup_insert_ne (l : List (OverwriteTarget × PermissionOverwrite))
    (t : OverwriteTarget) (ow : PermissionOverwrite) (t' : OverwriteTarget)
    (h : t' ≠ t) :
    overwritesLookup (overwritesInsert l t ow) t' = overwritesLookup l t' := by
  induction l with
  | nil => simp [overwritesInsert, overwritesLookup, Ne.symm h]
  | cons e rest ih =>
      by_cases he : e.1 = t <;>
        simp [overwritesInsert, overwritesLookup, he, ih, Ne.symm h]

theorem owLookup_erase_ne (l : List (OverwriteTarget × PermissionOverwrite))
    (t : OverwriteTarget) (t' : OverwriteTarget) (h : t' ≠ t) :
    overwritesLookup (overwritesErase l t) t' = overwritesLookup l t' := by
  induction l with
  | nil => simp [overwritesErase, overwritesLookup]
  | cons e rest ih =>
      by_cases he : e.1 = t <;>
        by_cases hid : e.1 = t' <;>
          simp_all [overwritesErase, overwritesLookup, List.filter]

/-- A default-role overwrite that carries no connect denial (only a speak
grant). -/
def owNoDenial : PermissionOverwrite := { speak := some true }

/-- A channel whose default-role overwrite does not deny connection. -/
def chanNoDenial : Channel :=
  { emptyChan with overwrites := [(.defaultRole, owNoDenial)] }

/-- A default-role overwrite carrying a connect denial together with a
further rule. -/
def owMixed : PermissionOverwrite := { connect := some false, speak := some true }

/-- A channel with the mixed default-role overwrite plus an unrelated
member overwrite. -/
def chanMixed : Channel :=
  { emptyChan with overwrites :=
      [(.defaultRole, owMixed), (.member 9, { speak := some false })] }

/-- C8 counterexample: on a channel whose default-role overwrite denies
nothing about connection (it only grants speak), the claim says
make-public is a no-op on the overwrites; the code instead deletes the
whole default-role entry, dropping the speak rule too. -/
theorem C8_counterexample :
    (overwritesLookup chanNoDenial.overwrites .defaultRole).isSome = true ∧
    owNoDenial.connect = none ∧
    make_public chanNoDenial ≠ chanNoDenial ∧
    (make_public chanNoDenial).overwrites = [] := by
  decide

/-- C8 amended: make-private sets the default role's overwrite on the
channel to exactly a connect denial (replacing any previous default-role
overwrite wholesale) and leaves overwrites of other targets intact;
make-public removes the default role's entire overwrite entry whenever one
exists — whatever rules it carries, connect denial or not — and is a no-op
only when no default-role entry exists; it too leaves other targets'
overwrites intact. -/
theorem C8_privacy_toggles (c : Channel) :
    (overwritesLookup (make_private c).overwrites .defaultRole =
        some { connect := some false } ∧
      ∀ t, t ≠ OverwriteTarget.defaultRole →
        overwritesLookup (make_private c).overwrites t =
          overwritesLookup c.overwrites t) ∧
    ((overwritesLookup c.overwrites .defaultRole).isSome = true →
      (make_public c).overwrites =
        overwritesErase c.overwrites .defaultRole) ∧
    (overwritesLookup c.overwrites .defaultRole = none →
      make_public c = c) ∧
    (∀ t, t ≠ OverwriteTarget.defaultRole →
      overwritesLookup (make_public c).overwrites t =
        overwritesLookup c.overwrites t) := by
  refine ⟨⟨?_, ?_⟩, ?_, ?_, ?_⟩
  · exact owLookup_insert_self c.overwrites .defaultRole _
  · intro t ht
    exact owLookup_insert_ne c.overwrites .defaultRole _ t ht
  · intro h
    unfold make_public
    simp [h]
  · intro h
    unfold make_public
    simp [h]
  · intro t ht
    unfold make_public
    by_cases h : (overwritesLookup c.overwrites .defaultRole).isSome = true <;>
      simp [h, owLookup_erase_ne c.overwrites .defaultRole t ht]

/-- C8 witness: on the mixed channel, make-private yields exactly the
connect denial for the default role and keeps member 9's overwrite;
make-public removes the whole default-role entry; on a channel with no
default-role entry, make-public changes nothing. -/
theorem C8_witness :
    overwritesLookup (make_private chanMixed).overwrites .defaultRole =
      some { connect := some false } ∧
    overwritesLookup (make_private chanMixed).overwrites (.member 9) =
      some { speak := some false } ∧
    (make_public chanMixed).overwrites =
      overwritesErase chanMixed.overwrites .defaultRole ∧
    make_public emptyChan = emptyChan := by
  refine ⟨?_, ?_, ?_, ?_⟩
  · exact (C8_privacy_toggles chanMixed).1.1
  · exact ((C8_privacy_toggles chanMixed).1.2 (.member 9) (by decide)).trans
      (by decide)
  · exact (C8_privacy_toggles chanMixed).2.1 (by decide)
  · exact (C8_privacy_toggles emptyChan).2.2.1 (by decide)

theorem insert_insert_same (r : Registry) (k : Nat) (v v' : ChannelInfo) :
    registryInsert (registryInsert r k v) k v' = registryInsert r k v' := by
  induction r with
  | nil => simp [registryInsert]
  | cons e rest ih => by_cases h : e.1 = k <;> simp [registryInsert, h, ih]

/-- A membership-change event whose `before` channel is none only runs the
creation branch: the resulting world is the one `_create_temp_channel`
produces. -/
theorem on_update_lobby_join_eq (cfg : Config) (w : World) (memberId : Nat)
    (dn : String) (fx : CreateEffects) (deleteCall : DeleteOutcome) :
    on_voice_state_update cfg w memberId dn none (some cfg.mainChannelId)
        fx deleteCall =
      (create_temp_channel cfg w memberId dn fx).world := by
  unfold on_voice_state_update
  simp

/-- On a successful creation with a successful move, the registry
afterwards is the old registry with the fresh channel id mapped to the
triggering member and the control-message id the panel posting returned. -/
theorem create_registry_eq (cfg : Config) (w : World) (memberId : Nat)
    (dn : String) (fx : CreateEffects)
    (hcat : cfg.mainCategoryId ∈ w.categories)
    (hcreate : fx.createCall = .success)
    (hmove : fx.moveSucceeds = true) :
    (create_temp_channel cfg w memberId dn fx).world.registry =
      registryInsert w.registry w.nextChannelId
        { creatorId := memberId,
          controlMessageId := fx.controlMessageId } := by
  unfold create_temp_channel
  rcases hm : fx.controlMessageId with _ | mid <;>
    simp [hcat, hcreate, hmove, hm, moveMember, insert_insert_same]

/-- C10: a membership-change event whose new channel is the configured
lobby creates and registers a fresh managed channel owned by the joining
user, with no check against that user already owning one: every
previously registered entry — including entries with the same owner id —
is preserved unchanged, so repeated lobby joins by one user accumulate
multiple registry entries with the same owner. -/
theorem C10_lobby_join_no_owner_dedup (cfg : Config) (w : World)
    (memberId : Nat) (dn : String) (fx : CreateEffects)
    (deleteCall : DeleteOutcome)
    (hcat : cfg.mainCategoryId ∈ w.categories)
    (hcreate : fx.createCall = .success)
    (hmove : fx.moveSucceeds = true) :
    registryLookup
        (on_voice_state_update cfg w memberId dn none
          (some cfg.mainChannelId) fx deleteCall).registry
        w.nextChannelId =
      some { creatorId := memberId,
             controlMessageId := fx.controlMessageId } ∧
    (∀ id info, id ≠ w.nextChannelId →
      registryLookup w.registry id = some info →
      registryLookup
          (on_voice_state_update cfg w memberId dn none
            (some cfg.mainChannelId) fx deleteCall).registry
          id =
        some info) := by
  rw [on_update_lobby_join_eq,
    create_registry_eq cfg w memberId dn fx hcat hcreate hmove]
  constructor
  · exact lookup_insert_self w.registry w.nextChannelId _
  · intro id info hid hinfo
    rw [lookup_insert_ne w.registry w.nextChannelId _ id hid]
    exact hinfo

/-- The sample world after user 7 joins the lobby once. -/
def joinOnce : World :=
  on_voice_state_update cfg0 w0 7 "u" none (some cfg0.mainChannelId)
    fxHappy .success

/-- The sample world after user 7 joins the lobby a second time. -/
def joinTwice : World :=
  on_voice_state_update cfg0 joinOnce 7 "u" none (some cfg0.mainChannelId)
    fxHappy .success

/-- C10 witness: after two lobby joins by user 7, the registry holds two
entries (channels 10 and 11), both owned by user 7. -/
theorem C10_witness :
    registryLookup joinTwice.registry 11 =
      some { creatorId := 7, controlMessageId := none } ∧
    registryLookup joinTwice.registry 10 =
      some { creatorId := 7, controlMessageId := none } := by
  constructor
  · exact (C10_lobby_join_no_owner_dedup cfg0 joinOnce 7 "u" fxHappy .success
      (by decide) rfl rfl).1
  · exact (C10_lobby_join_no_owner_dedup cfg0 joinOnce 7 "u" fxHappy .success
      (by decide) rfl rfl).2 10
      { creatorId := 7, controlMessageId := none } (by decide) (by decide)

/-- The deletion procedure either leaves the registry exactly as it was,
or erases the channel's entry — and the latter only on a successful or
not-found delete call. -/
theorem cleanup_registry_cases (reg : Registry) (c : Channel)
    (deleteCall : DeleteOutcome) :
    (cleanup_empty_channel reg c deleteCall).registry = reg ∨
    ((cleanup_empty_channel reg c deleteCall).registry =
        registryErase reg c.id ∧
      (deleteCall = .success ∨ deleteCall = .notFound)) := by
  by_cases hr : registryHas reg c.id = true
  · by_cases he : is_channel_empty c = true
    · cases deleteCall with
      | success =>
          exact Or.inr ⟨by simp [cleanup_empty_channel, hr, he], Or.inl rfl⟩
      | notFound =>
          exact Or.inr ⟨by simp [cleanup_empty_channel, hr, he], Or.inr rfl⟩
      | forbidden => exact Or.inl (by simp [cleanup_empty_channel, hr, he])
      | otherError => exact Or.inl (by simp [cleanup_empty_channel, hr, he])
    · exact Or.inl (by simp [cleanup_empty_channel, hr, he])
  · exact Or.inl (by simp [cleanup_empty_channel, hr])

/-- C3 counterexample: with channel 5 registered, the control panel's
delete button successfully deletes the channel yet leaves the registry
entry in place — a deletion path after which the entry survives,
contradicting the claim's "deletion removes the channel's registry
entry" for every path. -/
theorem C3_counterexample :
    registryHas sampleReg 5 = true ∧
    (view_delete_channel sampleReg .success).channelDeleted = true ∧
    (view_delete_channel sampleReg .success).registry = sampleReg := by
  decide

/-- C3 amended: the lifecycle deletion procedure removes the registry
entry when its delete call succeeds (and a registry entry is removed only
on a successful delete or a confirmed not-found: by the deletion
procedure on a success/not-found delete call, or by the monitor loop when
the channel is unresolvable); the control panel's delete button, however,
deletes the channel without touching the registry at all — its entry is
only removed later by the monitor observing the channel as gone. -/
theorem C3_registry_removal_discipline (reg : Registry) (c : Channel)
    (channelId : Nat) (resolved : Option Channel)
    (deleteCall : DeleteOutcome) :
    (is_channel_empty c = true → registryHas reg c.id = true →
      (cleanup_empty_channel reg c .success).registry =
        registryErase reg c.id ∧
      (cleanup_empty_channel reg c .success).deletedChannel = true) ∧
    ((view_delete_channel reg deleteCall).registry = reg) ∧
    (registryHas (cleanup_empty_channel reg c deleteCall).registry c.id =
        false →
      registryHas reg c.id = false ∨ deleteCall = .success ∨
        deleteCall = .notFound) ∧
    (registryHas (monitor_tick reg channelId resolved deleteCall).registry
        channelId = false →
      registryHas reg channelId = false ∨ resolved = none ∨
        deleteCall = .success ∨ deleteCall = .notFound) := by
  refine ⟨?_, ?_, ?_, ?_⟩
  · intro he hr
    simp [cleanup_empty_channel, hr, he]
  · cases deleteCall <;> rfl
  · intro h
    by_cases hr : registryHas reg c.id = true
    · rcases cleanup_registry_cases reg c deleteCall with hcase | hcase
      · rw [hcase] at h
        exact Or.inl h
      · exact Or.inr hcase.2
    · exact Or.inl (by simpa using hr)
  · intro h
    by_cases hr : registryHas reg channelId = true
    · unfold monitor_tick at h
      simp [hr] at h
      cases resolved with
      | none => exact Or.inr (Or.inl rfl)
      | some c' =>
          by_cases he : is_channel_empty c' = true
          · simp [he] at h
            rcases cleanup_registry_cases reg c' deleteCall with hcase | hcase
            · rw [hcase] at h
              simp [hr] at h
            · exact Or.inr (Or.inr hcase.2)
          · simp [he, hr] at h
    · exact Or.inl (by simpa using hr)

/-- C3 witness: for the tracked empty channel 5, a successful lifecycle
deletion erases the registry entry. -/
theorem C3_witness :
    (cleanup_empty_channel sampleReg emptyChan .success).registry =
      registryErase sampleReg 5 ∧
    (cleanup_empty_channel sampleReg emptyChan .success).deletedChannel =
      true := by
  have h := (C3_registry_removal_discipline sampleReg emptyChan 5 none
    .success).1 (by decide) (by decide)
  exact ⟨h.1, h.2⟩

/-- Whether a snapshot entry of the sweep resolves to an empty channel —
exactly the condition under which the sweep invokes the deletion
procedure and increments its counter. -/
def sweepPred (resolve : Nat → Option Channel) (e : Nat × ChannelInfo) :
    Bool :=
  match resolve e.1 with
  | some c => is_channel_empty c
  | none => false

theorem sweep_cleaned_aux (resolve : Nat → Option Channel)
    (deleteCalls : Nat → DeleteOutcome) :
    ∀ (l : List (Nat × ChannelInfo)) (acc : SweepState),
      (l.foldl (cleanup_channels_step resolve deleteCalls) acc).cleaned =
        acc.cleaned + l.countP (sweepPred resolve) := by
  intro l
  induction l with
  | nil => intro acc; simp
  | cons e rest ih =>
      intro acc
      rw [List.foldl_cons, ih]
      unfold cleanup_channels_step
      rcases hres : resolve e.1 with _ | c
      · simp [List.countP_cons, sweepPred, hres]
      · by_cases he : is_channel_empty c = true <;>
          simp [List.countP_cons, sweepPred, hres, he]
        all_goals omega

/-- Resolver for the counterexample sweep: only channel 5 exists, and it
is empty. -/
def resSample : Nat → Option Channel :=
  fun i => if i = 5 then some emptyChan else none

/-- Delete calls that are all refused by the platform. -/
def outsForbidden : Nat → DeleteOutcome := fun _ => .forbidden

/-- C9 counterexample: with one registered, resolvable, empty channel
whose delete call is forbidden, the sweep reports 1 cleaned although no
channel was actually deleted and the registry entry survives — the
reported count is not the number of channels actually deleted. -/
theorem C9_counterexample :
    (cleanup_channels sampleReg resSample outsForbidden).cleaned = 1 ∧
    (cleanup_channels sampleReg resSample outsForbidden).actuallyDeleted =
      0 ∧
    (cleanup_channels sampleReg resSample outsForbidden).registry =
      sampleReg := by
  decide

/-- Empty scenario channel 21. -/
def chanA : Channel :=
  { id := 21, name := "🔊 a", categoryId := 2, userLimit := 0,
    members := [], overwrites := [] }

/-- Empty scenario channel 22. -/
def chanB : Channel :=
  { id := 22, name := "🔊 b", categoryId := 2, userLimit := 0,
    members := [], overwrites := [] }

/-- Occupied scenario channel 23. -/
def chanC : Channel :=
  { id := 23, name := "🔊 c", categoryId := 2, userLimit := 0,
    members := [8], overwrites := [] }

/-- Registry of the three-channel sweep scenario. -/
def threeReg : Registry :=
  [(21, sampleInfo), (22, sampleInfo), (23, sampleInfo)]

/-- Resolver of the sweep scenario: 21 and 22 empty, 23 occupied, nothing
else resolvable. -/
def res3 : Nat → Option Channel :=
  fun i =>
    if i = 21 then some chanA
    else if i = 22 then some chanB
    else if i = 23 then some chanC
    else none

/-- Delete calls that all succeed. -/
def allSuccess : Nat → DeleteOutcome := fun _ => .success

/-- C9 amended: the sweep iterates every registry entry, drops entries
whose channel no longer resolves, runs the deletion procedure on each
resolvable empty channel and leaves occupied channels registered; the
reported count equals the number of entries that resolved to an empty
channel (deletion attempted), which matches the number actually deleted
whenever every delete call succeeds — in particular, for three registered
channels of which two are empty it reports exactly 2, deletes both, and
keeps the occupied one registered (an unresolvable fourth entry is
dropped without being counted). -/
theorem C9_sweep_report (reg : Registry) (resolve : Nat → Option Channel)
    (deleteCalls : Nat → DeleteOutcome) :
    (cleanup_channels reg resolve deleteCalls).cleaned =
      reg.countP (sweepPred resolve) ∧
    (cleanup_channels threeReg res3 allSuccess).cleaned = 2 ∧
    (cleanup_channels threeReg res3 allSuccess).actuallyDeleted = 2 ∧
    (cleanup_channels threeReg res3 allSuccess).registry =
      [(23, sampleInfo)] ∧
    (cleanup_channels ((4, sampleInfo) :: threeReg) res3 allSuccess).registry =
      [(23, sampleInfo)] ∧
    (cleanup_channels ((4, sampleInfo) :: threeReg) res3 allSuccess).cleaned =
      2 := by
  refine ⟨?_, by decide, by decide, by decide, by decide, by decide⟩
  unfold cleanup_channels
  simpa using sweep_cleaned_aux resolve deleteCalls reg
    { registry := reg, cleaned := 0, actuallyDeleted := 0 }

end VoiceBot
